import Mathlib

/-!
Shallow embedding of `src/EnhancedFontDiagnosticTool.py`.

The tool is a single Python class whose methods mutate a shared report
dictionary.  We embed the report as a structure, the ambient machine
(platform name, environment variables, filesystem, external commands)
as a structure of observation functions, and each checker method as a
function `Env → Report → Except PyErr Report`, where `Except.error`
models an uncaught Python exception escaping the method.

Conventions of the embedding:
- `os.path.join` is modelled with a "/" separator on every platform
  (the claims never depend on the separator character).
- Python message strings are kept verbatim, except that single-quote
  characters occurring inside a few messages are omitted.
- Hashing (`hashlib.md5(...).hexdigest()` of the file bytes) is modelled
  as an environment observation `Env.md5 : String → Option String`
  mapping a file path to its digest, `none` meaning the read raised.
- Reading and parsing an IDE configuration file down to the configured
  font-family string (json / xml / regex fallback in
  `check_ide_font_config`) is modelled as the environment observation
  `Env.fontSetting : String → Option String`; `none` means the attempt
  raised (malformed file, missing file, ...), which the Python code
  catches, and `some ff` is the extracted value (possibly empty).
-/

namespace FontDiag

/-- Outcome of `subprocess.run([cmd, ...])`: the executable may be
absent (Python raises `FileNotFoundError`), or it runs and exits with
a code, a stdout and a stderr. -/
inductive Subproc where
  | notInstalled
  | exit (code : Nat) (stdout : String) (stderr : String)
deriving DecidableEq, Repr

/-- Python exceptions that can escape a checker method. -/
inductive PyErr where
  | keyError (key : String)
  | fileNotFound (cmd : String)
  | ioError
deriving DecidableEq, Repr

/-- The `self.report` dictionary built in `__init__`.
`software_specific_issues` (a `defaultdict(list)`) is flattened to the
ordered list of (application, issue) append events. -/
structure Report where
  system : String
  issues : List String
  suggestions : List String
  missing_fonts : List String
  corrupted_fonts : List String
  font_cache_issues : Bool
  software_specific_issues : List (String × String)
  dpi_scaling_issues : List String
  font_integrity_issues : List String
deriving DecidableEq, Repr

/-- The ambient machine: platform name, environment variables, home
directory, filesystem observations and external command outcomes. -/
structure Env where
  system : String
  environ : String → Option String
  home : String
  pathExists : String → Bool
  accessRead : String → Bool
  fcCacheV : Subproc
  fcMatch : Subproc
  localeCmd : Subproc
  gsettings : Subproc
  systemProfiler : Subproc
  winregLogPixels : Option Int
  md5 : String → Option String
  listdir : String → Option (List String)
  glob : String → List String
  fontSetting : String → Option String
  writeOk : String → Bool

/-- `os.path.join` (modelled with a fixed "/" separator). -/
def pathJoin (a b : String) : String := a ++ "/" ++ b

/- String helpers.  Python's string operations are re-implemented by
structural recursion over the character list so that every definition
reduces inside the kernel. -/

/-- `hay` starts with `pat` (character lists). -/
def charsStartWith : List Char → List Char → Bool
  | _, [] => true
  | [], _ :: _ => false
  | c :: cs, p :: ps => c = p && charsStartWith cs ps

/-- `pat` occurs somewhere in `hay` (character lists). -/
def charsContains (pat : List Char) : List Char → Bool
  | [] => charsStartWith [] pat
  | c :: t => charsStartWith (c :: t) pat || charsContains pat t

/-- The suffix of `hay` after the first occurrence of `pat`, if any. -/
def charsAfterFirst (pat : List Char) : List Char → Option (List Char)
  | [] => if charsStartWith [] pat then some [] else none
  | c :: t =>
    if charsStartWith (c :: t) pat then some ((c :: t).drop pat.length)
    else charsAfterFirst pat t

/-- Python's substring test `pat in hay`. -/
def containsStr (hay pat : String) : Bool := charsContains pat.data hay.data

/-- Python's `s.startswith(pre)`. -/
def pyStartsWith (s pre : String) : Bool := charsStartWith s.data pre.data

/-- Python's `s.endswith(suf)`. -/
def pyEndsWith (s suf : String) : Bool := charsStartWith s.data.reverse suf.data.reverse

/-- Whitespace characters for Python's `str.strip` and the regex
class `\s` (ASCII range). -/
def isPyWhitespace (c : Char) : Bool :=
  c = ' ' || c = '\t' || c = '\n' || c = '\r' || c = '\x0b' || c = '\x0c'

/-- Python's `s.strip()`. -/
def pyStrip (s : String) : String :=
  ⟨((s.data.dropWhile isPyWhitespace).reverse.dropWhile isPyWhitespace).reverse⟩

/-- ASCII lower-casing of one character (what `str.lower()` does on
the strings this program inspects). -/
def asciiLower (c : Char) : Char :=
  if 'A' ≤ c && c ≤ 'Z' then Char.ofNat (c.toNat + 32) else c

/-- Python's `s.lower()`. -/
def pyLower (s : String) : String := ⟨s.data.map asciiLower⟩

/-- `os.path.expanduser`: replace a leading `~` with the home directory. -/
def expanduser (home p : String) : String :=
  if pyStartsWith p "~" then home ++ ⟨p.data.drop 1⟩ else p

/-- `", ".join(...)`. -/
def joinComma : List String → String
  | [] => ""
  | [a] => a
  | a :: b :: rest => a ++ ", " ++ joinComma (b :: rest)

/-- `self.report` as initialized in `__init__`. -/
def initReport (system : String) : Report :=
  { system := system
    issues := []
    suggestions := []
    missing_fonts := []
    corrupted_fonts := []
    font_cache_issues := false
    software_specific_issues := []
    dpi_scaling_issues := []
    font_integrity_issues := [] }

/-- `self.known_font_hashes` from `__init__` (illustrative placeholder
digests, copied verbatim). -/
def known_font_hashes : List (String × String) :=
  [("Arial.ttf", "a1b2c3d4e5f678901234567890123456"),
   ("Times New Roman.ttf", "f6e5d4c3b2a198765432109876543210"),
   ("Segoe UI.ttf", "1234567890abcdef1234567890abcdef"),
   ("DejaVuSans.ttf", "abcdef1234567890abcdef1234567890"),
   ("FreeSans.ttf", "0987654321abcdef0987654321abcdef"),
   ("Helvetica.dfont", "aabbccddeeff00112233445566778899"),
   ("San Francisco.ttf", "11223344556677889900aabbccddeeff")]

/- Message strings used by the checks (kept as named constants so the
theorems can refer to them). -/

def msgDirMissing (d : String) : String := "字体目录不存在: " ++ d

def sugDirMissing (d : String) : String := "创建目录: " ++ d ++ " 或修复系统字体设置"

def msgDirNoAccess (d : String) : String := "无法访问字体目录: " ++ d

def sugDirNoAccess (d : String) : String := "检查目录权限: " ++ d

def msgWinCache : String := "Windows字体缓存目录不存在"

def msgLinuxCache : String := "Linux字体缓存问题"

def msgMissingFonts (joined : String) : String := "缺少关键系统字体: " ++ joined

def sugMissingFonts : String := "考虑重新安装系统或恢复默认字体"

def msgFcMatchFail : String := "字体配置问题: 无法匹配基本字体"

def msgNoFontconfig : String := "fontconfig未安装或不可用"

def sugNoFontconfig : String := "安装fontconfig包: sudo apt install fontconfig"

def msgLocale : String := "区域设置可能不支持某些字体"

def sugLocale : String := "考虑设置LANG=en_US.UTF-8"

def msgAdobeCache : String := "Adobe字体缓存文件缺失"

def sugAdobeCache : String := "尝试在Adobe软件中重置字体首选项"

def msgOfficeMissing (joined : String) : String := "Office使用的字体缺失: " ++ joined

def sugOfficeMissing : String := "重新安装Microsoft Office或手动安装缺失的Office字体"

def msgIdeFont (ff : String) : String := "配置的字体 " ++ ff ++ " 不可用"

def sugIdeFont (ide : String) : String := "在" ++ ide ++ "设置中更改为已安装的字体"

def msgWinDpi (dpi : Int) : String :=
  "非标准DPI设置 (" ++ toString dpi ++ ") 可能导致字体显示问题"

def sugWinDpi : String := "尝试将DPI设置为100%(96)、125%(120)或150%(144)"

def msgLinuxScale (s : String) : String :=
  "非标准缩放设置 (" ++ s ++ ") 可能导致字体显示问题"

def msgDarwinScale : String := "检测到缩放的显示分辨率，可能影响字体显示"

/-- `get_font_dirs` (lines 72-92).  On Windows the two
`os.environ[...]` subscripts raise `KeyError` when the variable is
absent; for any unrecognized platform the method returns `[]`. -/
def get_font_dirs (env : Env) : Except PyErr (List String) :=
  if env.system = "Windows" then
    match env.environ "WINDIR" with
    | none => .error (.keyError "WINDIR")
    | some windir =>
      match env.environ "LOCALAPPDATA" with
      | none => .error (.keyError "LOCALAPPDATA")
      | some localappdata =>
        .ok [pathJoin windir "Fonts",
             pathJoin (pathJoin (pathJoin localappdata "Microsoft") "Windows") "Fonts"]
  else if env.system = "Linux" then
    .ok ["/usr/share/fonts", "/usr/local/share/fonts", expanduser env.home "~/.fonts"]
  else if env.system = "Darwin" then
    .ok ["/Library/Fonts", "/System/Library/Fonts", expanduser env.home "~/Library/Fonts"]
  else
    .ok []

/-- The body of the per-directory loop of `check_font_directories`
(lines 62-70). -/
def dirCheckStep (env : Env) (r : Report) (directory : String) : Report :=
  if ¬ env.pathExists directory then
    { r with issues := r.issues ++ [msgDirMissing directory]
             suggestions := r.suggestions ++ [sugDirMissing directory] }
  else if ¬ env.accessRead directory then
    { r with issues := r.issues ++ [msgDirNoAccess directory]
             suggestions := r.suggestions ++ [sugDirNoAccess directory] }
  else r

/-- `check_font_directories` (lines 57-70). -/
def check_font_directories (env : Env) (r : Report) : Except PyErr Report :=
  match get_font_dirs env with
  | .error e => .error e
  | .ok font_dirs => .ok (font_dirs.foldl (dirCheckStep env) r)

/-- `check_font_cache` (lines 94-119).  On Windows,
`os.environ['LOCALAPPDATA']` may raise `KeyError` (uncaught).  On
Linux, `subprocess.run(['fc-cache','-v'], check=True)` raises
`FileNotFoundError` when the executable is missing — the surrounding
`except` clause only catches `subprocess.CalledProcessError` (a
non-zero exit), so a missing executable propagates. -/
def check_font_cache (env : Env) (r : Report) : Except PyErr Report :=
  if env.system = "Windows" then
    match env.environ "LOCALAPPDATA" with
    | none => .error (.keyError "LOCALAPPDATA")
    | some localappdata =>
      let cache_dir :=
        pathJoin (pathJoin (pathJoin localappdata "Microsoft") "Windows") "FontCache"
      if ¬ env.pathExists cache_dir then
        .ok { r with font_cache_issues := true
                     issues := r.issues ++ [msgWinCache] }
      else .ok r
  else if env.system = "Linux" then
    match env.fcCacheV with
    | .notInstalled => .error (.fileNotFound "fc-cache")
    | .exit code _ _ =>
      if code ≠ 0 then
        .ok { r with font_cache_issues := true
                     issues := r.issues ++ [msgLinuxCache] }
      else .ok r
  else .ok r

/-- The per-platform dictionary of required / critical font names,
which appears verbatim both in `check_system_fonts` (lines 125-129)
and in `check_font_integrity` (lines 459-463). -/
def required_fonts_for (sys : String) : List String :=
  if sys = "Windows" then ["Arial.ttf", "Times New Roman.ttf", "Segoe UI.ttf"]
  else if sys = "Linux" then ["DejaVuSans.ttf", "FreeSans.ttf"]
  else if sys = "Darwin" then ["Helvetica.dfont", "San Francisco.ttf"]
  else []

/-- The missing-fonts collection loop of `check_system_fonts`
(lines 131-141): for each font, `self.get_font_dirs()` is called anew
and the font counts as found if it exists in any directory (the inner
loop breaks at the first hit). -/
def collectMissing (env : Env) : List String → List String → Except PyErr (List String)
  | acc, [] => .ok acc
  | acc, font :: rest =>
    match get_font_dirs env with
    | .error e => .error e
    | .ok font_dirs =>
      let found := font_dirs.any (fun d => env.pathExists (pathJoin d font))
      collectMissing env (if found then acc else acc ++ [font]) rest

/-- `check_system_fonts` (lines 121-148). -/
def check_system_fonts (env : Env) (r : Report) : Except PyErr Report :=
  match collectMissing env [] (required_fonts_for env.system) with
  | .error e => .error e
  | .ok missing_fonts =>
    if missing_fonts ≠ [] then
      .ok { r with missing_fonts := missing_fonts
                   issues := r.issues ++ [msgMissingFonts (joinComma missing_fonts)]
                   suggestions := r.suggestions ++ [sugMissingFonts] }
    else .ok r

/-- `check_font_config` (lines 150-165): Linux only; here the `except
FileNotFoundError` clause does catch a missing `fc-match` executable. -/
def check_font_config (env : Env) (r : Report) : Except PyErr Report :=
  if env.system = "Linux" then
    match env.fcMatch with
    | .notInstalled =>
      .ok { r with issues := r.issues ++ [msgNoFontconfig]
                   suggestions := r.suggestions ++ [sugNoFontconfig] }
    | .exit code _ _ =>
      if code ≠ 0 then
        .ok { r with issues := r.issues ++ [msgFcMatchFail] }
      else .ok r
  else .ok r

/-- `check_locale_settings` (lines 167-178): Linux only; every
exception (including a missing `locale` executable) is caught and only
printed.  The stdout test ignores the exit code. -/
def check_locale_settings (env : Env) (r : Report) : Except PyErr Report :=
  if env.system = "Linux" then
    match env.localeCmd with
    | .notInstalled => .ok r
    | .exit _ stdout _ =>
      if ¬ containsStr stdout "en_US.UTF-8" then
        .ok { r with issues := r.issues ++ [msgLocale]
                     suggestions := r.suggestions ++ [sugLocale] }
      else .ok r
  else .ok r

/-- `check_adobe_fonts` (lines 329-343): wrapped in a blanket
`try/except`, so a failing `os.listdir` degrades to no finding. -/
def check_adobe_fonts (env : Env) (r : Report) : Report :=
  let appdata := (env.environ "APPDATA").getD ""
  let adobe_font_dir :=
    pathJoin (pathJoin (pathJoin (pathJoin (pathJoin appdata "Adobe") "CoreSync")
      "plugins") "livetype") "c"
  if env.pathExists adobe_font_dir then
    match env.listdir adobe_font_dir with
    | none => r
    | some entries =>
      let cache_files := entries.filter (fun f => pyEndsWith f ".lst")
      if cache_files = [] then
        { r with software_specific_issues :=
                   r.software_specific_issues ++ [("Adobe", msgAdobeCache)]
                 suggestions := r.suggestions ++ [sugAdobeCache] }
      else r
  else r

/-- `check_office_fonts` (lines 345-367): the same found-in-any-dir
loop as `check_system_fonts`, over the Office font list, wrapped in a
blanket `try/except` (so an error from `get_font_dirs` degrades to no
finding). -/
def check_office_fonts (env : Env) (r : Report) : Report :=
  match collectMissing env [] ["Calibri.ttf", "Cambria.ttf", "Consolas.ttf"] with
  | .error _ => r
  | .ok missing =>
    if missing ≠ [] then
      { r with software_specific_issues :=
                 r.software_specific_issues ++
                   [("Microsoft Office", msgOfficeMissing (joinComma missing))]
               suggestions := r.suggestions ++ [sugOfficeMissing] }
    else r

/-- One entry of the `common_ides` table of `check_ide_fonts`
(lines 371-388). -/
structure IdeInfo where
  name : String
  paths : List String
  config_file : String
  font_setting : String

def common_ides : List IdeInfo :=
  [⟨"VSCode", ["~/.vscode", "~/AppData/Roaming/Code"],
    "settings.json", "editor.fontFamily"⟩,
   ⟨"IntelliJ", ["~/.IntelliJIdea*", "~/Library/Preferences/IntelliJIdea*"],
    "options/editor.xml", "FONT_FAMILY"⟩]

def ideExts : List String := [".ttf", ".otf", ".ttc"]

/-- `check_ide_font_config` (lines 408-452): wrapped in a blanket
`try/except`; a parse failure (`Env.fontSetting _ = none`) or an error
from `get_font_dirs` degrades to no finding; an empty extracted
font-family string is skipped by the `if font_family:` test. -/
def check_ide_font_config (env : Env) (ide_name config_path : String) (r : Report) :
    Report :=
  match env.fontSetting config_path with
  | none => r
  | some font_family =>
    if font_family = "" then r
    else
      match get_font_dirs env with
      | .error _ => r
      | .ok font_dirs =>
        let available := font_dirs.any (fun d =>
          ideExts.any (fun ext => env.pathExists (pathJoin d (font_family ++ ext))))
        if ¬ available then
          { r with software_specific_issues :=
                     r.software_specific_issues ++ [(ide_name, msgIdeFont font_family)]
                   suggestions := r.suggestions ++ [sugIdeFont ide_name] }
        else r

/-- Resolution of one path pattern in `check_ide_fonts`: a pattern
containing `*` is resolved to the first `glob` match (skipped when the
match list is empty). -/
def resolve_ide_path (env : Env) (path_pattern : String) : Option String :=
  if containsStr path_pattern "*" then
    match env.glob path_pattern with
    | [] => none
    | m :: _ => some m
  else some path_pattern

/-- The per-pattern loop of `check_ide_fonts` (lines 390-406): the
loop breaks after the first pattern whose configuration file exists. -/
def check_ide_paths (env : Env) (info : IdeInfo) : List String → Report → Report
  | [], r => r
  | path_pattern :: rest, r =>
    match resolve_ide_path env (expanduser env.home path_pattern) with
    | none => check_ide_paths env info rest r
    | some ide_path =>
      let config_path := pathJoin ide_path info.config_file
      if env.pathExists config_path then
        check_ide_font_config env info.name config_path r
      else
        check_ide_paths env info rest r

/-- `check_ide_fonts` (lines 369-406). -/
def check_ide_fonts (env : Env) (r : Report) : Report :=
  common_ides.foldl (fun r info => check_ide_paths env info info.paths r) r

/-- `check_software_specific_issues` (lines 310-327). -/
def check_software_specific_issues (env : Env) (r : Report) : Except PyErr Report :=
  let r := if env.system = "Windows" ∧ env.pathExists "C:\\Program Files\\Adobe" then
             check_adobe_fonts env r
           else r
  let r := if env.system = "Windows" ∧ env.pathExists "C:\\Program Files\\Microsoft Office" then
             check_office_fonts env r
           else r
  .ok (check_ide_fonts env r)

/-- `verify_font_integrity` (lines 473-491): compute the digest of the
file (any read error is caught and the method returns `False`), then
return `False` exactly when a (truthy) table entry exists and differs
from the digest. -/
def verify_font_integrity (env : Env) (font_path font_name : String) : Bool :=
  match env.md5 font_path with
  | none => false
  | some file_hash =>
    match List.lookup font_name known_font_hashes with
    | none => true
    | some known_hash =>
      if known_hash ≠ "" ∧ file_hash ≠ known_hash then false else true

/-- The inner directory loop of `check_font_integrity` (lines 466-471):
at the first directory containing the font, verify that copy and break. -/
def integrityScanDirs (env : Env) (font : String) : List String → Report → Report
  | [], r => r
  | font_dir :: rest, r =>
    let font_path := pathJoin font_dir font
    if env.pathExists font_path then
      if verify_font_integrity env font_path font then r
      else { r with font_integrity_issues := r.font_integrity_issues ++ [font] }
    else integrityScanDirs env font rest r

/-- The outer font loop of `check_font_integrity`: `get_font_dirs` is
called anew for each font (so a `KeyError` from it propagates). -/
def integrityLoop (env : Env) : List String → Report → Except PyErr Report
  | [], r => .ok r
  | font :: rest, r =>
    match get_font_dirs env with
    | .error e => .error e
    | .ok font_dirs => integrityLoop env rest (integrityScanDirs env font font_dirs r)

/-- `check_font_integrity` (lines 454-471). -/
def check_font_integrity (env : Env) (r : Report) : Except PyErr Report :=
  integrityLoop env (required_fonts_for env.system) r

def winDpiWhitelist : List Int := [96, 120, 144]

/-- `re.search(r"Resolution:\s*(.+)", stdout)` of `check_dpi_scaling`:
the capture after the first occurrence of "Resolution:", leading
whitespace dropped, up to the end of the line.  (When only whitespace
remains the real regex can still capture a run of blanks via
backtracking; such a capture cannot contain the "scaled" marker, so
returning `none` there is observationally equal.) -/
def regexResolutionSearch (stdout : String) : Option String :=
  match charsAfterFirst "Resolution:".data stdout.data with
  | none => none
  | some after =>
    let captured := (after.dropWhile isPyWhitespace).takeWhile (fun c => c ≠ '\n')
    if captured = [] then none else some ⟨captured⟩

/-- `check_dpi_scaling` (lines 493-538).  Every branch wraps its query
in a blanket `try/except`, so a failed query (missing registry value,
missing executable) produces no finding.  Only the Windows branch
records a remediation suggestion; the Linux and Darwin branches append
a scaling issue alone. -/
def check_dpi_scaling (env : Env) (r : Report) : Except PyErr Report :=
  if env.system = "Windows" then
    match env.winregLogPixels with
    | none => .ok r
    | some dpi_value =>
      if ¬ winDpiWhitelist.contains dpi_value then
        .ok { r with dpi_scaling_issues := r.dpi_scaling_issues ++ [msgWinDpi dpi_value]
                     suggestions := r.suggestions ++ [sugWinDpi] }
      else .ok r
  else if env.system = "Linux" then
    match env.gsettings with
    | .notInstalled => .ok r
    | .exit code stdout _ =>
      if code = 0 then
        let scaling := pyStrip stdout
        if ¬ (scaling = "1" ∨ scaling = "2") then
          .ok { r with dpi_scaling_issues := r.dpi_scaling_issues ++ [msgLinuxScale scaling] }
        else .ok r
      else .ok r
  else if env.system = "Darwin" then
    match env.systemProfiler with
    | .notInstalled => .ok r
    | .exit _ stdout _ =>
      if containsStr stdout "Resolution" then
        match regexResolutionSearch stdout with
        | none => .ok r
        | some resolution =>
          if containsStr (pyLower resolution) "scaled" then
            .ok { r with dpi_scaling_issues := r.dpi_scaling_issues ++ [msgDarwinScale] }
          else .ok r
      else .ok r
  else .ok r

/-- The fixed persisted-report location of `generate_report`
(line 225): `os.path.join(os.path.expanduser("~"), "font_diagnostic_report.txt")`. -/
def report_path (env : Env) : String := pathJoin env.home "font_diagnostic_report.txt"

/-- The persistence step of `generate_report` (lines 224-228): the
`open(report_path, 'w')` / `json.dump` pair is not wrapped in any
`try/except`, so a write failure raises.  The printing of the report
sections (lines 182-222) is pure console output and leaves the report
unchanged. -/
def generate_report (env : Env) (r : Report) : Except PyErr Report :=
  if env.writeOk (report_path env) then .ok r else .error .ioError

/-- The eight checks of `run_full_diagnostics` (lines 43-52), in
source order. -/
def run_checks (env : Env) : Except PyErr Report :=
  match check_font_directories env (initReport env.system) with
  | .error e => .error e
  | .ok r =>
  match check_font_cache env r with
  | .error e => .error e
  | .ok r =>
  match check_system_fonts env r with
  | .error e => .error e
  | .ok r =>
  match check_font_config env r with
  | .error e => .error e
  | .ok r =>
  match check_locale_settings env r with
  | .error e => .error e
  | .ok r =>
  match check_software_specific_issues env r with
  | .error e => .error e
  | .ok r =>
  match check_font_integrity env r with
  | .error e => .error e
  | .ok r => check_dpi_scaling env r

/-- `run_full_diagnostics` (lines 38-55): the checks in order, then
`generate_report`.  Nothing in the method catches an exception raised
by a check, so an error from any check aborts the run before the
report is produced. -/
def run_full_diagnostics (env : Env) : Except PyErr Report :=
  match run_checks env with
  | .error e => .error e
  | .ok r => generate_report env r

/-- Observable side effects, used to state frame conditions. -/
inductive Eff where
  | consoleOut (s : String)
  | fileOp (s : String)
deriving DecidableEq, Repr

/-- `restore_default_fonts` (lines 289-308): the method only prints
per-platform guidance; it touches neither the filesystem nor the
report.  The returned effect list is its console output. -/
def restore_default_fonts (sys : String) (r : Report) : Report × List Eff :=
  let header := [Eff.consoleOut "恢复默认系统字体..."]
  if sys = "Windows" then
    (r, header ++
      [Eff.consoleOut "在Windows上恢复默认字体:",
       Eff.consoleOut "1. 打开设置 > 个性化 > 字体",
       Eff.consoleOut "2. 点击恢复默认字体设置",
       Eff.consoleOut "3. 或者从另一台相同系统的计算机复制字体"])
  else if sys = "Linux" then
    (r, header ++
      [Eff.consoleOut "在Linux上恢复默认字体:",
       Eff.consoleOut "1. 重新安装字体包:",
       Eff.consoleOut "   Debian/Ubuntu: sudo apt install --reinstall fonts-dejavu fonts-freefont-ttf",
       Eff.consoleOut "   Fedora/RHEL: sudo dnf reinstall dejavu-sans-fonts freefont"])
  else if sys = "Darwin" then
    (r, header ++
      [Eff.consoleOut "在macOS上恢复默认字体:",
       Eff.consoleOut "1. 从Time Machine备份恢复/Library/Fonts和/System/Library/Fonts",
       Eff.consoleOut "2. 或重新安装操作系统"])
  else
    (r, header)

/-! ## Derived predicates and concrete environments used by the theorems -/

/-- The append-only relation between two report states: the `system`
field is unchanged, every list field of the earlier report is a prefix
of the later one, and the `font_cache_issues` flag is only ever raised. -/
def ReportExtends (r r' : Report) : Prop :=
  r'.system = r.system ∧
  List.IsPrefix r.issues r'.issues ∧
  List.IsPrefix r.suggestions r'.suggestions ∧
  List.IsPrefix r.missing_fonts r'.missing_fonts ∧
  List.IsPrefix r.corrupted_fonts r'.corrupted_fonts ∧
  (r.font_cache_issues = true → r'.font_cache_issues = true) ∧
  List.IsPrefix r.software_specific_issues r'.software_specific_issues ∧
  List.IsPrefix r.dpi_scaling_issues r'.dpi_scaling_issues ∧
  List.IsPrefix r.font_integrity_issues r'.font_integrity_issues

/-- A font exists in none of the resolved directories. -/
def absentEverywhere (env : Env) (font_dirs : List String) (font : String) : Bool :=
  !(font_dirs.any (fun d => env.pathExists (pathJoin d font)))

/-- The integrity check flags `font`: scanning the directory list in
order, the first directory where the font exists holds a copy that
fails verification; a font existing nowhere is never flagged. -/
def integrityFailed (env : Env) (font : String) : List String → Bool
  | [] => false
  | d :: rest =>
    if env.pathExists (pathJoin d font) then
      ! verify_font_integrity env (pathJoin d font) font
    else integrityFailed env font rest

def envBase : Env :=
  { system := "Linux"
    environ := fun _ => none
    home := "/home/user"
    pathExists := fun _ => false
    accessRead := fun _ => true
    fcCacheV := .exit 0 "" ""
    fcMatch := .exit 0 "DejaVuSans.ttf" ""
    localeCmd := .exit 0 "LANG=en_US.UTF-8" ""
    gsettings := .exit 0 "1" ""
    systemProfiler := .exit 0 "" ""
    winregLogPixels := none
    md5 := fun _ => none
    listdir := fun _ => none
    glob := fun _ => []
    fontSetting := fun _ => none
    writeOk := fun _ => true }

def envC1 : Env := { envBase with fcCacheV := .notInstalled }

def envC1win : Env := { envBase with system := "Windows" }

def envC4 : Env := { envBase with writeOk := fun _ => false }

def envC7 : Env := { envBase with gsettings := .exit 0 "3" "" }

def envScenario : Env :=
  { envBase with pathExists := fun p =>
      p = "/usr/share/fonts" || p = "/usr/local/share/fonts" || p = "/home/user/.fonts" ||
      p = "/usr/share/fonts/DejaVuSans.ttf" }

def envC5W : Env :=
  { envScenario with md5 := fun _ => some "00000000000000000000000000000000" }

def envC6 : Env := { envBase with system := "Darwin" }

def envC6R : Env := { envBase with md5 := fun _ => some "cafe" }

def envWin : Env :=
  { envBase with
    system := "Windows"
    environ := fun k =>
      if k = "WINDIR" then some "C:\\Windows"
      else if k = "LOCALAPPDATA" then some "C:\\Users\\u\\AppData\\Local"
      else none
    pathExists := fun _ => true }

def envFree : Env := { envBase with system := "FreeBSD" }

/-- The report produced by a full run over `envBase`. -/
def rBaseFinal : Report :=
  { system := "Linux"
    issues := [msgDirMissing "/usr/share/fonts", msgDirMissing "/usr/local/share/fonts",
               msgDirMissing "/home/user/.fonts",
               msgMissingFonts "DejaVuSans.ttf, FreeSans.ttf"]
    suggestions := [sugDirMissing "/usr/share/fonts", sugDirMissing "/usr/local/share/fonts",
                    sugDirMissing "/home/user/.fonts", sugMissingFonts]
    missing_fonts := ["DejaVuSans.ttf", "FreeSans.ttf"]
    corrupted_fonts := []
    font_cache_issues := false
    software_specific_issues := []
    dpi_scaling_issues := []
    font_integrity_issues := [] }

/-! ## Lemmas and theorems -/

lemma reportExtends_refl (r : Report) : ReportExtends r r :=
  ⟨rfl, List.prefix_refl _, List.prefix_refl _, List.prefix_refl _, List.prefix_refl _,
   fun h => h, List.prefix_refl _, List.prefix_refl _, List.prefix_refl _⟩

lemma reportExtends_trans {a b c : Report}
    (h1 : ReportExtends a b) (h2 : ReportExtends b c) : ReportExtends a c := by
  obtain ⟨s1, i1, g1, m1, c1, f1, w1, d1, t1⟩ := h1
  obtain ⟨s2, i2, g2, m2, c2, f2, w2, d2, t2⟩ := h2
  exact ⟨s2.trans s1, i1.trans i2, g1.trans g2, m1.trans m2, c1.trans c2,
    fun h => f2 (f1 h), w1.trans w2, d1.trans d2, t1.trans t2⟩

lemma dirCheckStep_extends (env : Env) (r : Report) (d : String) :
    ReportExtends r (dirCheckStep env r d) := by
  unfold dirCheckStep
  split
  · exact ⟨rfl, List.prefix_append _ _, List.prefix_append _ _, List.prefix_refl _,
      List.prefix_refl _, fun h => h, List.prefix_refl _, List.prefix_refl _, List.prefix_refl _⟩
  split
  · exact ⟨rfl, List.prefix_append _ _, List.prefix_append _ _, List.prefix_refl _,
      List.prefix_refl _, fun h => h, List.prefix_refl _, List.prefix_refl _, List.prefix_refl _⟩
  · exact reportExtends_refl r

lemma foldl_dirCheckStep_extends (env : Env) :
    ∀ (l : List String) (r : Report), ReportExtends r (l.foldl (dirCheckStep env) r)
  | [], r => reportExtends_refl r
  | d :: l, r => by
    rw [List.foldl_cons]
    exact reportExtends_trans (dirCheckStep_extends env r d)
      (foldl_dirCheckStep_extends env l (dirCheckStep env r d))

lemma check_font_directories_extends {env : Env} {r r' : Report}
    (h : check_font_directories env r = .ok r') : ReportExtends r r' := by
  unfold check_font_directories at h
  split at h
  · exact absurd h (by simp)
  · rw [Except.ok.injEq] at h
    exact h ▸ foldl_dirCheckStep_extends env _ r

lemma check_font_cache_extends {env : Env} {r r' : Report}
    (h : check_font_cache env r = .ok r') : ReportExtends r r' := by
  simp only [check_font_cache] at h
  split at h
  · split at h
    · exact absurd h (by simp)
    · split at h <;> rw [Except.ok.injEq] at h <;> subst h
      · exact ⟨rfl, List.prefix_append _ _, List.prefix_refl _, List.prefix_refl _,
          List.prefix_refl _, fun _ => rfl, List.prefix_refl _, List.prefix_refl _,
          List.prefix_refl _⟩
      · exact reportExtends_refl r
  split at h
  · split at h
    · exact absurd h (by simp)
    · split at h <;> rw [Except.ok.injEq] at h <;> subst h
      · exact ⟨rfl, List.prefix_append _ _, List.prefix_refl _, List.prefix_refl _,
          List.prefix_refl _, fun _ => rfl, List.prefix_refl _, List.prefix_refl _,
          List.prefix_refl _⟩
      · exact reportExtends_refl r
  · rw [Except.ok.injEq] at h
    exact h ▸ reportExtends_refl r

lemma check_system_fonts_extends {env : Env} {r r' : Report}
    (hmf : r.missing_fonts = [])
    (h : check_system_fonts env r = .ok r') : ReportExtends r r' := by
  unfold check_system_fonts at h
  split at h
  · exact absurd h (by simp)
  · split at h <;> rw [Except.ok.injEq] at h <;> subst h
    · exact ⟨rfl, List.prefix_append _ _, List.prefix_append _ _,
        hmf ▸ List.nil_prefix, List.prefix_refl _, fun hh => hh, List.prefix_refl _,
        List.prefix_refl _, List.prefix_refl _⟩
    · exact reportExtends_refl r

lemma check_font_config_extends {env : Env} {r r' : Report}
    (h : check_font_config env r = .ok r') : ReportExtends r r' := by
  unfold check_font_config at h
  split at h
  · split at h
    · rw [Except.ok.injEq] at h
      subst h
      exact ⟨rfl, List.prefix_append _ _, List.prefix_append _ _, List.prefix_refl _,
        List.prefix_refl _, fun hh => hh, List.prefix_refl _, List.prefix_refl _,
        List.prefix_refl _⟩
    · split at h <;> rw [Except.ok.injEq] at h <;> subst h
      · exact ⟨rfl, List.prefix_append _ _, List.prefix_refl _, List.prefix_refl _,
          List.prefix_refl _, fun hh => hh, List.prefix_refl _, List.prefix_refl _,
          List.prefix_refl _⟩
      · exact reportExtends_refl r
  · rw [Except.ok.injEq] at h
    exact h ▸ reportExtends_refl r

lemma check_locale_settings_extends {env : Env} {r r' : Report}
    (h : check_locale_settings env r = .ok r') : ReportExtends r r' := by
  unfold check_locale_settings at h
  split at h
  · split at h
    · rw [Except.ok.injEq] at h
      exact h ▸ reportExtends_refl r
    · split at h <;> rw [Except.ok.injEq] at h <;> subst h
      · exact ⟨rfl, List.prefix_append _ _, List.prefix_append _ _, List.prefix_refl _,
          List.prefix_refl _, fun hh => hh, List.prefix_refl _, List.prefix_refl _,
          List.prefix_refl _⟩
      · exact reportExtends_refl r
  · rw [Except.ok.injEq] at h
    exact h ▸ reportExtends_refl r

lemma check_adobe_fonts_extends (env : Env) (r : Report) :
    ReportExtends r (check_adobe_fonts env r) := by
  simp only [check_adobe_fonts]
  split
  · split
    · exact reportExtends_refl r
    · split
      · exact ⟨rfl, List.prefix_refl _, List.prefix_append _ _, List.prefix_refl _,
          List.prefix_refl _, fun hh => hh, List.prefix_append _ _, List.prefix_refl _,
          List.prefix_refl _⟩
      · exact reportExtends_refl r
  · exact reportExtends_refl r

lemma check_office_fonts_extends (env : Env) (r : Report) :
    ReportExtends r (check_office_fonts env r) := by
  simp only [check_office_fonts]
  split
  · exact reportExtends_refl r
  · split
    · exact ⟨rfl, List.prefix_refl _, List.prefix_append _ _, List.prefix_refl _,
        List.prefix_refl _, fun hh => hh, List.prefix_append _ _, List.prefix_refl _,
        List.prefix_refl _⟩
    · exact reportExtends_refl r

lemma check_ide_font_config_extends (env : Env) (ide_name config_path : String)
    (r : Report) : ReportExtends r (check_ide_font_config env ide_name config_path r) := by
  simp only [check_ide_font_config]
  split
  · exact reportExtends_refl r
  · split
    · exact reportExtends_refl r
    · split
      · exact reportExtends_refl r
      · split
        · exact ⟨rfl, List.prefix_refl _, List.prefix_append _ _, List.prefix_refl _,
            List.prefix_refl _, fun hh => hh, List.prefix_append _ _, List.prefix_refl _,
            List.prefix_refl _⟩
        · exact reportExtends_refl r

lemma check_ide_paths_extends (env : Env) (info : IdeInfo) :
    ∀ (pats : List String) (r : Report), ReportExtends r (check_ide_paths env info pats r)
  | [], r => reportExtends_refl r
  | p :: rest, r => by
    simp only [check_ide_paths]
    split
    · exact check_ide_paths_extends env info rest r
    · split
      · exact check_ide_font_config_extends env info.name _ r
      · exact check_ide_paths_extends env info rest r

lemma check_ide_fonts_extends (env : Env) (r : Report) :
    ReportExtends r (check_ide_fonts env r) := by
  simp only [check_ide_fonts, common_ides, List.foldl_cons, List.foldl_nil]
  exact reportExtends_trans (check_ide_paths_extends env _ _ r)
    (check_ide_paths_extends env _ _ _)

lemma extends_if_step {P : Prop} [Decidable P] (f : Report → Report)
    (hf : ∀ r, ReportExtends r (f r)) (r : Report) :
    ReportExtends r (if P then f r else r) := by
  split
  · exact hf r
  · exact reportExtends_refl r

lemma check_software_specific_issues_extends {env : Env} {r r' : Report}
    (h : check_software_specific_issues env r = .ok r') : ReportExtends r r' := by
  simp only [check_software_specific_issues, Except.ok.injEq] at h
  subst h
  exact reportExtends_trans
    (reportExtends_trans (extends_if_step _ (check_adobe_fonts_extends env) r)
      (extends_if_step _ (check_office_fonts_extends env) _))
    (check_ide_fonts_extends env _)

lemma integrityScanDirs_extends (env : Env) (font : String) :
    ∀ (dirs : List String) (r : Report), ReportExtends r (integrityScanDirs env font dirs r)
  | [], r => reportExtends_refl r
  | d :: rest, r => by
    simp only [integrityScanDirs]
    split
    · split
      · exact reportExtends_refl r
      · exact ⟨rfl, List.prefix_refl _, List.prefix_refl _, List.prefix_refl _,
          List.prefix_refl _, fun hh => hh, List.prefix_refl _, List.prefix_refl _,
          List.prefix_append _ _⟩
    · exact integrityScanDirs_extends env font rest r

lemma integrityLoop_extends {env : Env} :
    ∀ {fonts : List String} {r r' : Report},
      integrityLoop env fonts r = .ok r' → ReportExtends r r'
  | [], r, r', h => by
    simp only [integrityLoop, Except.ok.injEq] at h
    exact h ▸ reportExtends_refl r
  | font :: rest, r, r', h => by
    simp only [integrityLoop] at h
    split at h
    · exact absurd h (by simp)
    · exact reportExtends_trans (integrityScanDirs_extends env font _ r)
        (integrityLoop_extends h)

lemma check_font_integrity_extends {env : Env} {r r' : Report}
    (h : check_font_integrity env r = .ok r') : ReportExtends r r' :=
  integrityLoop_extends h

lemma check_dpi_scaling_extends {env : Env} {r r' : Report}
    (h : check_dpi_scaling env r = .ok r') : ReportExtends r r' := by
  simp only [check_dpi_scaling] at h
  split at h
  · split at h
    · rw [Except.ok.injEq] at h
      exact h ▸ reportExtends_refl r
    · split at h <;> rw [Except.ok.injEq] at h <;> subst h
      · exact ⟨rfl, List.prefix_refl _, List.prefix_append _ _, List.prefix_refl _,
          List.prefix_refl _, fun hh => hh, List.prefix_refl _, List.prefix_append _ _,
          List.prefix_refl _⟩
      · exact reportExtends_refl r
  split at h
  · split at h
    · rw [Except.ok.injEq] at h
      exact h ▸ reportExtends_refl r
    · split at h
      · split at h <;> rw [Except.ok.injEq] at h <;> subst h
        · exact ⟨rfl, List.prefix_refl _, List.prefix_refl _, List.prefix_refl _,
            List.prefix_refl _, fun hh => hh, List.prefix_refl _, List.prefix_append _ _,
            List.prefix_refl _⟩
        · exact reportExtends_refl r
      · rw [Except.ok.injEq] at h
        exact h ▸ reportExtends_refl r
  split at h
  · split at h
    · rw [Except.ok.injEq] at h
      exact h ▸ reportExtends_refl r
    · split at h
      · split at h
        · rw [Except.ok.injEq] at h
          exact h ▸ reportExtends_refl r
        · split at h <;> rw [Except.ok.injEq] at h <;> subst h
          · exact ⟨rfl, List.prefix_refl _, List.prefix_refl _, List.prefix_refl _,
              List.prefix_refl _, fun hh => hh, List.prefix_refl _, List.prefix_append _ _,
              List.prefix_refl _⟩
          · exact reportExtends_refl r
      · rw [Except.ok.injEq] at h
        exact h ▸ reportExtends_refl r
  · rw [Except.ok.injEq] at h
    exact h ▸ reportExtends_refl r

lemma generate_report_ok {env : Env} {r r' : Report}
    (h : generate_report env r = .ok r') : r' = r := by
  simp only [generate_report] at h
  split at h
  · rw [Except.ok.injEq] at h
    exact h.symm
  · exact absurd h (by simp)

lemma dirCheckStep_missing (env : Env) (r : Report) (d : String) :
    (dirCheckStep env r d).missing_fonts = r.missing_fonts := by
  unfold dirCheckStep
  split
  · rfl
  · split <;> rfl

lemma foldl_dirCheckStep_missing (env : Env) :
    ∀ (l : List String) (r : Report),
      (l.foldl (dirCheckStep env) r).missing_fonts = r.missing_fonts
  | [], _ => rfl
  | d :: l, r => by
    rw [List.foldl_cons, foldl_dirCheckStep_missing env l, dirCheckStep_missing]

lemma check_font_directories_missing {env : Env} {r r' : Report}
    (h : check_font_directories env r = .ok r') : r'.missing_fonts = r.missing_fonts := by
  unfold check_font_directories at h
  split at h
  · exact absurd h (by simp)
  · rw [Except.ok.injEq] at h
    subst h
    exact foldl_dirCheckStep_missing env _ r

lemma check_font_cache_missing {env : Env} {r r' : Report}
    (h : check_font_cache env r = .ok r') : r'.missing_fonts = r.missing_fonts := by
  simp only [check_font_cache] at h
  split at h
  · split at h
    · exact absurd h (by simp)
    · split at h <;> rw [Except.ok.injEq] at h <;> subst h <;> rfl
  split at h
  · split at h
    · exact absurd h (by simp)
    · split at h <;> rw [Except.ok.injEq] at h <;> subst h <;> rfl
  · rw [Except.ok.injEq] at h
    subst h
    rfl

lemma run_checks_extends {env : Env} {r' : Report} (h : run_checks env = .ok r') :
    ReportExtends (initReport env.system) r' := by
  unfold run_checks at h
  split at h
  · exact absurd h (by simp)
  next r1 h1 =>
  split at h
  · exact absurd h (by simp)
  next r2 h2 =>
  split at h
  · exact absurd h (by simp)
  next r3 h3 =>
  split at h
  · exact absurd h (by simp)
  next r4 h4 =>
  split at h
  · exact absurd h (by simp)
  next r5 h5 =>
  split at h
  · exact absurd h (by simp)
  next r6 h6 =>
  split at h
  · exact absurd h (by simp)
  next r7 h7 =>
  have hm : r2.missing_fonts = [] := by
    rw [check_font_cache_missing h2, check_font_directories_missing h1]
    rfl
  exact reportExtends_trans (check_font_directories_extends h1)
    (reportExtends_trans (check_font_cache_extends h2)
      (reportExtends_trans (check_system_fonts_extends hm h3)
        (reportExtends_trans (check_font_config_extends h4)
          (reportExtends_trans (check_locale_settings_extends h5)
            (reportExtends_trans (check_software_specific_issues_extends h6)
              (reportExtends_trans (check_font_integrity_extends h7)
                (check_dpi_scaling_extends h)))))))

lemma run_full_diagnostics_extends {env : Env} {r' : Report}
    (h : run_full_diagnostics env = .ok r') :
    ReportExtends (initReport env.system) r' ∧ r'.system = env.system := by
  unfold run_full_diagnostics at h
  split at h
  · exact absurd h (by simp)
  next r8 h8 =>
  have hx := generate_report_ok h
  subst hx
  exact ⟨run_checks_extends h8, (run_checks_extends h8).1⟩

lemma collectMissing_ok {env : Env} {font_dirs : List String}
    (hd : get_font_dirs env = .ok font_dirs) :
    ∀ (fonts acc : List String),
      collectMissing env acc fonts =
        .ok (acc ++ fonts.filter (absentEverywhere env font_dirs))
  | [], acc => by simp [collectMissing]
  | font :: rest, acc => by
    simp only [collectMissing, hd]
    rw [collectMissing_ok hd rest]
    cases hfound : font_dirs.any (fun d => env.pathExists (pathJoin d font)) <;>
      simp [List.filter_cons, absentEverywhere, hfound]

lemma required_fonts_nodup (sys : String) : (required_fonts_for sys).Nodup := by
  unfold required_fonts_for
  split
  · decide
  split
  · decide
  split
  · decide
  · decide

lemma integrityScanDirs_eq (env : Env) (font : String) :
    ∀ (dirs : List String) (r : Report),
      integrityScanDirs env font dirs r =
        if integrityFailed env font dirs then
          { r with font_integrity_issues := r.font_integrity_issues ++ [font] }
        else r
  | [], r => by simp [integrityScanDirs, integrityFailed]
  | d :: rest, r => by
    simp only [integrityScanDirs, integrityFailed]
    split
    · cases hv : verify_font_integrity env (pathJoin d font) font <;> simp [hv]
    · exact integrityScanDirs_eq env font rest r

lemma integrityLoop_ok {env : Env} {font_dirs : List String}
    (hd : get_font_dirs env = .ok font_dirs) :
    ∀ (fonts : List String) (r : Report),
      integrityLoop env fonts r =
        .ok { r with font_integrity_issues :=
                r.font_integrity_issues ++
                  fonts.filter (fun font => integrityFailed env font font_dirs) }
  | [], r => by simp [integrityLoop]
  | font :: rest, r => by
    simp only [integrityLoop, hd]
    rw [integrityScanDirs_eq env font font_dirs r]
    cases hfail : integrityFailed env font font_dirs
    · rw [integrityLoop_ok hd rest]
      simp [List.filter_cons, hfail]
    · rw [integrityLoop_ok hd rest]
      simp [List.filter_cons, hfail]

lemma lookup_mem_values {α β : Type} [BEq α] :
    ∀ (l : List (α × β)) {k : α} {v : β}, List.lookup k l = some v → v ∈ l.map Prod.snd
  | [], _, _, h => by simp [List.lookup] at h
  | (a, b) :: t, k, v, h => by
    rw [List.lookup] at h
    split at h
    · simp only [Option.some.injEq] at h
      subst h
      simp
    · simp [lookup_mem_values t h]

lemma known_hash_ne_empty (n v : String)
    (h : List.lookup n known_font_hashes = some v) : v ≠ "" := by
  intro he
  subst he
  exact absurd (lookup_mem_values known_font_hashes h) (by decide)

lemma integrityFailed_of_absent (env : Env) (font : String) :
    ∀ dirs, absentEverywhere env dirs font = true → integrityFailed env font dirs = false
  | [], _ => rfl
  | d :: rest, h => by
    simp only [absentEverywhere, List.any_cons, Bool.not_eq_true', Bool.or_eq_false_iff] at h
    simp only [integrityFailed, h.1, Bool.false_eq_true, if_false]
    exact integrityFailed_of_absent env font rest
      (by simp [absentEverywhere, h.2])

/-- Claim C1 (refuted by the code): on a Linux-like platform with the
external cache-check executable (`fc-cache`) not installed, the
`FileNotFoundError` raised by `subprocess.run` is NOT caught by the
`except subprocess.CalledProcessError` clause of `check_font_cache`;
it propagates out of the check, the remaining checks never run and no
report is produced.  Likewise, on a Windows-like platform with the
required environment variables absent, the `KeyError` raised by
`get_font_dirs` propagates.  Both runs abort with an error. -/
theorem c1_check_failure_propagates :
    run_full_diagnostics envC1 = .error (.fileNotFound "fc-cache") ∧
    run_full_diagnostics envC1win = .error (.keyError "WINDIR") :=
  ⟨rfl, rfl⟩

/-- Claim C2 counterexample: for a font name with no entry in the
known-hash table and a file whose read fails, `verify_font_integrity`
returns `false` — the very same value as a confirmed digest mismatch —
rather than `true` or a distinct could-not-verify outcome. -/
theorem c2_counterexample :
    List.lookup "Unknown.ttf" known_font_hashes = none ∧
    envBase.md5 "/usr/share/fonts/Unknown.ttf" = none ∧
    verify_font_integrity envBase "/usr/share/fonts/Unknown.ttf" "Unknown.ttf" = false :=
  ⟨rfl, rfl, rfl⟩

/-- Claim C2 as amended: verification returns true exactly when the
file could be read (a digest was computed) and either no table entry
exists or the digest equals the entry; any read failure yields false,
indistinguishable at the boolean result from a confirmed mismatch
(the distinction exists only in console output). -/
theorem c2_verify_amended (env : Env) (font_path font_name : String) :
    verify_font_integrity env font_path font_name = true ↔
      ∃ h, env.md5 font_path = some h ∧
        (List.lookup font_name known_font_hashes = none ∨
         List.lookup font_name known_font_hashes = some h) := by
  unfold verify_font_integrity
  cases hm : env.md5 font_path with
  | none => simp [hm]
  | some file_hash =>
    cases hl : List.lookup font_name known_font_hashes with
    | none => simp [hl]
    | some known_hash =>
      have hne := known_hash_ne_empty font_name known_hash hl
      by_cases hfk : file_hash = known_hash
      · subst hfk
        simp [hl, hne]
      · simp [hl, hne, hfk, Ne.symm hfk]

/-- Claim C6 counterexample: even for a font name with no entry in
the known-hash table, a file whose read fails makes verification
return `false` (the mismatch result), not the cannot-assert-corruption
pass. -/
theorem c6_counterexample :
    List.lookup "Mystery.otf" known_font_hashes = none ∧
    verify_font_integrity envC6 "/Library/Fonts/Mystery.otf" "Mystery.otf" = false :=
  ⟨rfl, rfl⟩

/-- Claim C6 as amended: for a font name with no entry in the
known-hash table, verification returns the pass result whenever the
file could be read (a digest was computed); if the read fails it
returns false, the same result as a mismatch. -/
theorem c6_no_entry_amended (env : Env) (font_path font_name digest : String)
    (hl : List.lookup font_name known_font_hashes = none)
    (hm : env.md5 font_path = some digest) :
    verify_font_integrity env font_path font_name = true := by
  unfold verify_font_integrity
  rw [hm, hl]

/-- Witness for the amended C6 at a concrete input. -/
theorem c6_no_entry_amended_witness :
    List.lookup "Unknown2.ttf" known_font_hashes = none ∧
    envC6R.md5 "/usr/share/fonts/Unknown2.ttf" = some "cafe" ∧
    verify_font_integrity envC6R "/usr/share/fonts/Unknown2.ttf" "Unknown2.ttf" = true :=
  ⟨rfl, rfl, c6_no_entry_amended envC6R "/usr/share/fonts/Unknown2.ttf" "Unknown2.ttf" "cafe" rfl rfl⟩

/-- Claim C4 counterexample: with the report location unwritable, the
whole diagnostic run raises (`open` is not wrapped in any
`try/except`) instead of reporting the error and completing. -/
theorem c4_counterexample : run_full_diagnostics envC4 = .error .ioError := rfl

/-- Claim C4 as amended: the persistence step succeeds and returns the
report unchanged when the target location is writable; when it is
unwritable, the write raises, and the raise propagates so that the
overall run can never complete. -/
theorem c4_persist_amended (env : Env) (r : Report) :
    (env.writeOk (report_path env) = true → generate_report env r = .ok r) ∧
    (env.writeOk (report_path env) = false →
      generate_report env r = .error .ioError ∧
      ∀ r', run_full_diagnostics env ≠ .ok r') := by
  constructor
  · intro hw
    simp [generate_report, hw]
  · intro hw
    refine ⟨by simp [generate_report, hw], ?_⟩
    intro r' hrun
    unfold run_full_diagnostics at hrun
    split at hrun
    · exact absurd hrun (by simp)
    · simp [generate_report, hw] at hrun

/-- Witness for the amended C4 at a concrete input. -/
theorem c4_persist_amended_witness :
    (envC4.writeOk (report_path envC4) = true →
       generate_report envC4 (initReport "Linux") = .ok (initReport "Linux")) ∧
    (envC4.writeOk (report_path envC4) = false →
       generate_report envC4 (initReport "Linux") = .error .ioError ∧
       ∀ r', run_full_diagnostics envC4 ≠ .ok r') :=
  c4_persist_amended envC4 (initReport "Linux")

/-- Claim C10: `restore_default_fonts` only prints guidance: for every
platform name and every report state the report is unchanged and every
emitted effect is console output (no file operation). -/
theorem c10_restore_default_fonts_frame (sys : String) (r : Report) :
    (restore_default_fonts sys r).1 = r ∧
    ∃ msgs : List String, (restore_default_fonts sys r).2 = msgs.map Eff.consoleOut := by
  unfold restore_default_fonts
  split
  · exact ⟨rfl, ["恢复默认系统字体...", "在Windows上恢复默认字体:", "1. 打开设置 > 个性化 > 字体",
      "2. 点击恢复默认字体设置", "3. 或者从另一台相同系统的计算机复制字体"], rfl⟩
  split
  · exact ⟨rfl, ["恢复默认系统字体...", "在Linux上恢复默认字体:", "1. 重新安装字体包:",
      "   Debian/Ubuntu: sudo apt install --reinstall fonts-dejavu fonts-freefont-ttf",
      "   Fedora/RHEL: sudo dnf reinstall dejavu-sans-fonts freefont"], rfl⟩
  split
  · exact ⟨rfl, ["恢复默认系统字体...", "在macOS上恢复默认字体:",
      "1. 从Time Machine备份恢复/Library/Fonts和/System/Library/Fonts",
      "2. 或重新安装操作系统"], rfl⟩
  · exact ⟨rfl, ["恢复默认系统字体..."], rfl⟩

/-- Claim C3: after `check_system_fonts` succeeds (starting from a
report whose `missing_fonts` is still empty, as in every run),
`missing_fonts` is exactly the critical fonts of the platform that are
present in none of the resolved directories, and when that collection
is non-empty exactly one aggregate issue and one aggregate suggestion
are appended (nothing is appended when it is empty). -/
theorem c3_missing_fonts_exact (env : Env) (r r' : Report) (font_dirs : List String)
    (hd : get_font_dirs env = .ok font_dirs)
    (h0 : r.missing_fonts = [])
    (h : check_system_fonts env r = .ok r') :
    r'.missing_fonts =
      (required_fonts_for env.system).filter (absentEverywhere env font_dirs) ∧
    (r'.missing_fonts ≠ [] →
       r'.issues = r.issues ++ [msgMissingFonts (joinComma r'.missing_fonts)] ∧
       r'.suggestions = r.suggestions ++ [sugMissingFonts]) ∧
    (r'.missing_fonts = [] → r' = r) := by
  unfold check_system_fonts at h
  rw [collectMissing_ok hd (required_fonts_for env.system) [], List.nil_append] at h
  split at h
  · next hne => simp at hne
  · next missing hne =>
    rw [Except.ok.injEq] at hne
    subst hne
    split at h
    · next hne2 =>
      rw [Except.ok.injEq] at h
      subst h
      exact ⟨rfl, fun _ => ⟨rfl, rfl⟩, fun hc => absurd hc hne2⟩
    · next hne2 =>
      rw [Except.ok.injEq] at h
      subst h
      rw [not_not] at hne2
      exact ⟨by rw [h0, hne2], fun hc => absurd h0 hc, fun _ => rfl⟩

/-- Witness for C3 on the spec scenario: Linux, all three directories
exist, `DejaVuSans.ttf` present in `/usr/share/fonts`, `FreeSans.ttf`
absent everywhere. -/
theorem c3_missing_fonts_exact_witness :
    get_font_dirs envScenario = .ok ["/usr/share/fonts", "/usr/local/share/fonts", "/home/user/.fonts"] ∧
    (initReport "Linux").missing_fonts = [] ∧
    check_system_fonts envScenario (initReport "Linux") =
      .ok { initReport "Linux" with
              missing_fonts := ["FreeSans.ttf"]
              issues := [msgMissingFonts "FreeSans.ttf"]
              suggestions := [sugMissingFonts] } ∧
    ({ initReport "Linux" with
         missing_fonts := ["FreeSans.ttf"]
         issues := [msgMissingFonts "FreeSans.ttf"]
         suggestions := [sugMissingFonts] } : Report).missing_fonts =
      (required_fonts_for envScenario.system).filter
        (absentEverywhere envScenario ["/usr/share/fonts", "/usr/local/share/fonts", "/home/user/.fonts"]) :=
  ⟨rfl, rfl, rfl,
   (c3_missing_fonts_exact envScenario (initReport "Linux") _ _ rfl rfl rfl).1⟩

/-- Claim C5: after `check_font_integrity` succeeds, the flagged fonts
are exactly the critical fonts whose first on-disk copy (scanning the
directory list in order) fails verification, each appended exactly
once per run; a critical font present in no directory contributes
nothing. -/
theorem c5_integrity_first_match (env : Env) (r r' : Report) (font_dirs : List String)
    (hd : get_font_dirs env = .ok font_dirs)
    (h : check_font_integrity env r = .ok r') :
    r'.font_integrity_issues =
      r.font_integrity_issues ++
        (required_fonts_for env.system).filter
          (fun font => integrityFailed env font font_dirs) ∧
    (∀ font, font ∈ required_fonts_for env.system →
       integrityFailed env font font_dirs = true →
       List.count font r.font_integrity_issues = 0 →
       List.count font r'.font_integrity_issues = 1) ∧
    (∀ font, integrityFailed env font font_dirs = false →
       List.count font r'.font_integrity_issues = List.count font r.font_integrity_issues) ∧
    (∀ font, absentEverywhere env font_dirs font = true →
       integrityFailed env font font_dirs = false) := by
  unfold check_font_integrity at h
  rw [integrityLoop_ok hd (required_fonts_for env.system) r, Except.ok.injEq] at h
  subst h
  refine ⟨rfl, ?_, ?_, fun font => integrityFailed_of_absent env font font_dirs⟩
  · intro font hmem hfail hzero
    simp only [List.count_append, hzero, Nat.zero_add]
    have hp : (fun f => integrityFailed env f font_dirs) font = true := hfail
    exact List.count_eq_one_of_mem ((required_fonts_nodup env.system).filter _)
      (List.mem_filter.mpr ⟨hmem, hp⟩)
  · intro font hfail
    simp only [List.count_append]
    have hnm : font ∉ (required_fonts_for env.system).filter
        (fun font => integrityFailed env font font_dirs) := by
      intro hmem
      rw [List.mem_filter] at hmem
      rw [hmem.2] at hfail
      exact absurd hfail (by simp)
    rw [List.count_eq_zero.mpr hnm]
    simp

/-- Witness for C5 on the spec scenario: `DejaVuSans.ttf` exists in
the first directory but its bytes hash to a digest different from the
recorded reference, so it is flagged exactly once. -/
theorem c5_integrity_first_match_witness :
    get_font_dirs envC5W = .ok ["/usr/share/fonts", "/usr/local/share/fonts", "/home/user/.fonts"] ∧
    check_font_integrity envC5W (initReport "Linux") =
      .ok { initReport "Linux" with font_integrity_issues := ["DejaVuSans.ttf"] } ∧
    ({ initReport "Linux" with font_integrity_issues := ["DejaVuSans.ttf"] } : Report).font_integrity_issues =
      (initReport "Linux").font_integrity_issues ++
        (required_fonts_for envC5W.system).filter
          (fun font => integrityFailed envC5W font
            ["/usr/share/fonts", "/usr/local/share/fonts", "/home/user/.fonts"]) :=
  ⟨rfl, rfl,
   (c5_integrity_first_match envC5W (initReport "Linux") _ _ rfl rfl).1⟩

/-- Claim C7 counterexample: on Linux a queried scaling value of "3"
(outside the whitelist {1, 2}) records a scaling issue but NO
remediation suggestion, so the claim that both an issue and a
suggestion are recorded on every supported platform is false. -/
theorem c7_counterexample :
    (check_dpi_scaling envC7 (initReport "Linux")).map Report.dpi_scaling_issues =
      .ok [msgLinuxScale "3"] ∧
    (check_dpi_scaling envC7 (initReport "Linux")).map Report.suggestions = .ok [] :=
  ⟨rfl, rfl⟩

/-- Claim C7 as amended: an out-of-whitelist value records an issue
and a suggestion on Windows, but on Linux and macOS only the scaling
issue is recorded, with no accompanying suggestion; any failure to
query the settings produces no issue at all. -/
theorem c7_dpi_scaling_amended (env : Env) (r : Report) :
    (env.system = "Windows" → ∀ dpi, env.winregLogPixels = some dpi →
       winDpiWhitelist.contains dpi = false →
       check_dpi_scaling env r =
         .ok { r with dpi_scaling_issues := r.dpi_scaling_issues ++ [msgWinDpi dpi]
                      suggestions := r.suggestions ++ [sugWinDpi] }) ∧
    (env.system = "Windows" → env.winregLogPixels = none →
       check_dpi_scaling env r = .ok r) ∧
    (env.system = "Linux" → ∀ stdout stderr, env.gsettings = .exit 0 stdout stderr →
       ¬ (pyStrip stdout = "1" ∨ pyStrip stdout = "2") →
       check_dpi_scaling env r =
         .ok { r with dpi_scaling_issues :=
                 r.dpi_scaling_issues ++ [msgLinuxScale (pyStrip stdout)] }) ∧
    (env.system = "Linux" → env.gsettings = .notInstalled →
       check_dpi_scaling env r = .ok r) ∧
    (env.system = "Linux" → ∀ code stdout stderr, env.gsettings = .exit code stdout stderr →
       code ≠ 0 → check_dpi_scaling env r = .ok r) ∧
    (env.system = "Darwin" → ∀ code stdout stderr resolution,
       env.systemProfiler = .exit code stdout stderr →
       containsStr stdout "Resolution" = true →
       regexResolutionSearch stdout = some resolution →
       containsStr (pyLower resolution) "scaled" = true →
       check_dpi_scaling env r =
         .ok { r with dpi_scaling_issues := r.dpi_scaling_issues ++ [msgDarwinScale] }) ∧
    (env.system = "Darwin" → env.systemProfiler = .notInstalled →
       check_dpi_scaling env r = .ok r) := by
  have hlw : ¬ (("Linux" : String) = "Windows") := by decide
  have hdw : ¬ (("Darwin" : String) = "Windows") := by decide
  have hdl : ¬ (("Darwin" : String) = "Linux") := by decide
  refine ⟨?_, ?_, ?_, ?_, ?_, ?_, ?_⟩
  · intro hs dpi hreg hout
    have hmem : dpi ∉ winDpiWhitelist := by simpa using hout
    simp [check_dpi_scaling, hs, hreg, hmem]
  · intro hs hreg
    simp [check_dpi_scaling, hs, hreg]
  · intro hs stdout stderr hg hout
    simp [check_dpi_scaling, hs, hlw, hg, hout]
  · intro hs hg
    simp [check_dpi_scaling, hs, hlw, hg]
  · intro hs code stdout stderr hg hcode
    simp [check_dpi_scaling, hs, hlw, hg, hcode]
  · intro hs code stdout stderr resolution hsp hres hsearch hscaled
    simp [check_dpi_scaling, hs, hdw, hdl, hsp, hres, hsearch, hscaled]
  · intro hs hsp
    simp [check_dpi_scaling, hs, hdw, hdl, hsp]

/-- Witness for the amended C7 at the concrete Linux input. -/
theorem c7_dpi_scaling_amended_witness :
    check_dpi_scaling envC7 (initReport "Linux") =
      .ok { initReport "Linux" with dpi_scaling_issues := [msgLinuxScale "3"] } :=
  (c7_dpi_scaling_amended envC7 (initReport "Linux")).2.2.1 rfl "3" "" rfl (by decide)

/-- Claim C8: for the three supported platform identifiers the
resolver yields non-empty directory and critical-font lists (on
Windows, provided the two environment variables it reads exist); for
every other identifier it yields empty lists without failing, and all
platform-dependent checks then leave the report unchanged. -/
theorem c8_platform_resolver (env : Env) :
    (env.system = "Windows" → ∀ w l, env.environ "WINDIR" = some w →
       env.environ "LOCALAPPDATA" = some l →
       get_font_dirs env = .ok [pathJoin w "Fonts",
         pathJoin (pathJoin (pathJoin l "Microsoft") "Windows") "Fonts"] ∧
       required_fonts_for env.system = ["Arial.ttf", "Times New Roman.ttf", "Segoe UI.ttf"]) ∧
    (env.system = "Linux" →
       get_font_dirs env =
         .ok ["/usr/share/fonts", "/usr/local/share/fonts", expanduser env.home "~/.fonts"] ∧
       required_fonts_for env.system = ["DejaVuSans.ttf", "FreeSans.ttf"]) ∧
    (env.system = "Darwin" →
       get_font_dirs env =
         .ok ["/Library/Fonts", "/System/Library/Fonts", expanduser env.home "~/Library/Fonts"] ∧
       required_fonts_for env.system = ["Helvetica.dfont", "San Francisco.ttf"]) ∧
    (env.system ≠ "Windows" → env.system ≠ "Linux" → env.system ≠ "Darwin" →
       get_font_dirs env = .ok [] ∧ required_fonts_for env.system = [] ∧
       ∀ r, check_font_directories env r = .ok r ∧
            check_font_cache env r = .ok r ∧
            check_system_fonts env r = .ok r ∧
            check_font_config env r = .ok r ∧
            check_locale_settings env r = .ok r ∧
            check_font_integrity env r = .ok r ∧
            check_dpi_scaling env r = .ok r) := by
  have hlw : ¬ (("Linux" : String) = "Windows") := by decide
  have hdw : ¬ (("Darwin" : String) = "Windows") := by decide
  have hdl : ¬ (("Darwin" : String) = "Linux") := by decide
  refine ⟨?_, ?_, ?_, ?_⟩
  · intro hs w l hw hl
    constructor
    · simp [get_font_dirs, hs, hw, hl]
    · simp [required_fonts_for, hs]
  · intro hs
    constructor
    · simp [get_font_dirs, hs, hlw]
    · simp [required_fonts_for, hs, hlw]
  · intro hs
    constructor
    · simp [get_font_dirs, hs, hdw, hdl]
    · simp [required_fonts_for, hs, hdw, hdl]
  · intro h1 h2 h3
    have hd : get_font_dirs env = .ok [] := by
      simp [get_font_dirs, h1, h2, h3]
    have hreq : required_fonts_for env.system = [] := by
      simp [required_fonts_for, h1, h2, h3]
    refine ⟨hd, hreq, fun r => ⟨?_, ?_, ?_, ?_, ?_, ?_, ?_⟩⟩
    · simp [check_font_directories, hd]
    · simp [check_font_cache, h1, h2]
    · simp [check_system_fonts, hreq, collectMissing]
    · simp [check_font_config, h2]
    · simp [check_locale_settings, h2]
    · simp [check_font_integrity, hreq, integrityLoop]
    · simp [check_dpi_scaling, h1, h2, h3]

/-- Witness for C8 at two concrete platforms: a Windows environment
with both variables set, and an unrecognized "FreeBSD" platform. -/
theorem c8_platform_resolver_witness :
    (get_font_dirs envWin = .ok [pathJoin "C:\\Windows" "Fonts",
       pathJoin (pathJoin (pathJoin "C:\\Users\\u\\AppData\\Local" "Microsoft") "Windows") "Fonts"] ∧
     required_fonts_for envWin.system = ["Arial.ttf", "Times New Roman.ttf", "Segoe UI.ttf"]) ∧
    (get_font_dirs envFree = .ok [] ∧ required_fonts_for envFree.system = [] ∧
     ∀ r, check_font_directories envFree r = .ok r ∧
          check_font_cache envFree r = .ok r ∧
          check_system_fonts envFree r = .ok r ∧
          check_font_config envFree r = .ok r ∧
          check_locale_settings envFree r = .ok r ∧
          check_font_integrity envFree r = .ok r ∧
          check_dpi_scaling envFree r = .ok r) :=
  ⟨(c8_platform_resolver envWin).1 rfl "C:\\Windows" "C:\\Users\\u\\AppData\\Local" rfl rfl,
   (c8_platform_resolver envFree).2.2.2 (by decide) (by decide) (by decide)⟩

/-- Claim C9: within a single run the report is append-only: every
check of the diagnostic sequence maps an ok-state to an extension of
it (`check_system_fonts` under the run precondition that
`missing_fonts` has not yet been filled); extension means the `system`
field is unchanged, every list field grows only at its end and the
cache flag is never lowered, so in particular the length of `issues`
never decreases; consequently a completed run extends the freshly
constructed report. -/
theorem c9_report_append_only :
    (∀ r r' : Report, ReportExtends r r' → r.issues.length ≤ r'.issues.length) ∧
    (∀ (env : Env) (r r' : Report),
       check_font_directories env r = .ok r' → ReportExtends r r') ∧
    (∀ (env : Env) (r r' : Report),
       check_font_cache env r = .ok r' → ReportExtends r r') ∧
    (∀ (env : Env) (r r' : Report), r.missing_fonts = [] →
       check_system_fonts env r = .ok r' → ReportExtends r r') ∧
    (∀ (env : Env) (r r' : Report),
       check_font_config env r = .ok r' → ReportExtends r r') ∧
    (∀ (env : Env) (r r' : Report),
       check_locale_settings env r = .ok r' → ReportExtends r r') ∧
    (∀ (env : Env) (r r' : Report),
       check_software_specific_issues env r = .ok r' → ReportExtends r r') ∧
    (∀ (env : Env) (r r' : Report),
       check_font_integrity env r = .ok r' → ReportExtends r r') ∧
    (∀ (env : Env) (r r' : Report),
       check_dpi_scaling env r = .ok r' → ReportExtends r r') ∧
    (∀ (env : Env) (r r' : Report),
       generate_report env r = .ok r' → ReportExtends r r') ∧
    (∀ (env : Env) (r' : Report), run_full_diagnostics env = .ok r' →
       ReportExtends (initReport env.system) r' ∧ r'.system = env.system) :=
  ⟨fun _ _ h => h.2.1.length_le,
   fun _ _ _ h => check_font_directories_extends h,
   fun _ _ _ h => check_font_cache_extends h,
   fun _ _ _ hm h => check_system_fonts_extends hm h,
   fun _ _ _ h => check_font_config_extends h,
   fun _ _ _ h => check_locale_settings_extends h,
   fun _ _ _ h => check_software_specific_issues_extends h,
   fun _ _ _ h => check_font_integrity_extends h,
   fun _ _ _ h => check_dpi_scaling_extends h,
   fun _ r _ h => (generate_report_ok h) ▸ reportExtends_refl r,
   fun _ _ h => run_full_diagnostics_extends h⟩

/-- Witness for C9: a concrete completed run whose final report
extends the initial one. -/
theorem c9_report_append_only_witness :
    run_full_diagnostics envBase = .ok rBaseFinal ∧
    ReportExtends (initReport "Linux") rBaseFinal ∧ rBaseFinal.system = "Linux" :=
  ⟨rfl,
   (c9_report_append_only.2.2.2.2.2.2.2.2.2.2 envBase rBaseFinal rfl).1,
   (c9_report_append_only.2.2.2.2.2.2.2.2.2.2 envBase rBaseFinal rfl).2⟩

end FontDiag
